import Mathlib

/-!
Shallow embedding of the Versus-League-Manager contract (src/src/lib.rs)
and proofs about its specification.  Entry points are modelled as pure
functions from a sender, parsed parameters and the contract `State` to an
`Except`-result carrying the emitted events and the updated state; the
hosting runtime's transactional commit is modelled explicitly where a claim
needs it (the upgrade path).
-/

namespace VersusLeague

/-- Account addresses, abstracted to naturals. -/
abbrev AccountAddress := Nat

/-- Contract addresses (index, subindex), abstracted to pairs of naturals. -/
abbrev ContractAddress := Nat × Nat

/-- `Address` from concordium_std: an account or a contract. -/
inductive Address
  | Account (a : AccountAddress)
  | Contract (c : ContractAddress)
deriving DecidableEq, Repr

/-- Standard identifiers (CIS `StandardIdentifierOwned`), abstracted to strings. -/
abbrev StandardIdentifier := String

/-- `PlayerState` (src/src/lib.rs lines 51-55). -/
inductive PlayerState
  | Active
  | Suspended
deriving DecidableEq, Repr

/-- `BattleResult` (src/src/lib.rs lines 57-61). -/
inductive BattleResult
  | Win
  | Loss
deriving DecidableEq, Repr

/-- The u64 modulus: `wins`/`losses` are Rust `u64` values, modelled as `Nat`
reduced mod `2 ^ 64` wherever arithmetic happens. -/
def U64_MOD : Nat := 2 ^ 64

/-- `PlayerData` (src/src/lib.rs lines 5-14): status plus win/loss counters. -/
structure PlayerData where
  state : PlayerState
  wins : Nat
  losses : Nat
deriving DecidableEq, Repr

/-- Association-list lookup, modelling `StateMap::get`. -/
def mapLookup {α β : Type} [DecidableEq α] : List (α × β) → α → Option β
  | [], _ => none
  | (k, v) :: rest, a => if k = a then some v else mapLookup rest a

/-- Association-list insert-or-replace, modelling `StateMap::insert` /
`entry(..).and_modify(..).or_insert(..)` writes. -/
def mapInsert {α β : Type} [DecidableEq α] : List (α × β) → α → β → List (α × β)
  | [], a, b => [(a, b)]
  | (k, v) :: rest, a, b =>
    if k = a then (a, b) :: rest else (k, v) :: mapInsert rest a b

/-- The contract `State` (src/src/lib.rs lines 34-49). -/
structure State where
  admin : Address
  player_data : List (Address × PlayerData)
  paused : Bool
  implementors : List (StandardIdentifier × List ContractAddress)
deriving DecidableEq, Repr

/-- `CustomContractError` (src/src/lib.rs lines 117-142). -/
inductive CustomContractError
  | ParseParams
  | LogFull
  | LogMalformed
  | Unauthorized
  | ContractPaused
  | InvokeContractError
  | PlayerDoesNotExist
  | FailedUpgradeMissingModule
  | FailedUpgradeMissingContract
  | FailedUpgradeUnsupportedModuleVersion
deriving DecidableEq, Repr

/-- Events loggable by the contract (`NewAdminEvent`, `NewBattleResultEvent`);
the logger is modelled as always succeeding. -/
inductive Event
  | NewAdmin (new_admin : Address)
  | NewBattleResult (player : Address) (is_win : BattleResult)
deriving DecidableEq, Repr

/-- `UpdateBattleResultParams` (src/src/lib.rs lines 26-32). -/
structure UpdateBattleResultParams where
  player : Address
  result : BattleResult
deriving DecidableEq, Repr

/-- `contract_init` (src/src/lib.rs lines 195-212): fresh state with the
instantiator as admin, unpaused, empty maps; logs a `NewAdminEvent`. -/
def contract_init (init_origin : AccountAddress) : List Event × State :=
  let invoker := Address.Account init_origin
  ([Event.NewAdmin invoker],
   { admin := invoker, player_data := [], paused := false, implementors := [] })

/-- `contract_state_set_player_data`, entrypoint `setPlayerData`
(src/src/lib.rs lines 222-249): pause check first, then admin check, then
upsert — `and_modify` updates only `state`, `or_insert` creates the record
with zeroed counters.  Parameters arrive already parsed (wire decoding is
outside the embedding). -/
def contract_state_set_player_data (sender : Address)
    (params : Address × PlayerState) (s : State) :
    Except CustomContractError (List Event × State) :=
  if s.paused then .error .ContractPaused
  else if sender ≠ s.admin then .error .Unauthorized
  else
    let pd :=
      match mapLookup s.player_data params.1 with
      | some pd => { pd with state := params.2 }
      | none => { state := params.2, wins := 0, losses := 0 }
    .ok ([], { s with player_data := mapInsert s.player_data params.1 pd })

/-- `update_battle_result`, entrypoint `updateBattleResult`
(src/src/lib.rs lines 259-298): pause check first, then admin check; if the
player has no record the function returns `Ok(())` without touching state or
logging (lines 276-279); otherwise the matching u64 counter is incremented
(wrapping, release-mode Rust semantics) and a `NewBattleResultEvent` is
logged. -/
def update_battle_result (sender : Address) (params : UpdateBattleResultParams)
    (s : State) : Except CustomContractError (List Event × State) :=
  if s.paused then .error .ContractPaused
  else if sender ≠ s.admin then .error .Unauthorized
  else
    match mapLookup s.player_data params.player with
    | none => .ok ([], s)
    | some pd =>
      let pd' :=
        match params.result with
        | .Win => { pd with wins := (pd.wins + 1) % U64_MOD }
        | .Loss => { pd with losses := (pd.losses + 1) % U64_MOD }
      .ok ([Event.NewBattleResult params.player params.result],
           { s with player_data := mapInsert s.player_data params.player pd' })

/-- `contract_state_get_paused`, entrypoint `getPaused`
(src/src/lib.rs lines 307-312). -/
def contract_state_get_paused (s : State) : Except CustomContractError Bool :=
  .ok s.paused

/-- `contract_state_get_player_data`, entrypoint `getPlayerData`
(src/src/lib.rs lines 322-333): returns the stored `PlayerState` only
(return type `(PlayerState)`), or `PlayerDoesNotExist` when absent. -/
def contract_state_get_player_data (params : Address) (s : State) :
    Except CustomContractError PlayerState :=
  match mapLookup s.player_data params with
  | some pd => .ok pd.state
  | none => .error .PlayerDoesNotExist

/-- `contract_state_is_added`, entrypoint `isAdded`
(src/src/lib.rs lines 342-350). -/
def contract_state_is_added (params : Address) (s : State) :
    Except CustomContractError Bool :=
  .ok (mapLookup s.player_data params).isSome

/-- `contract_update_admin`, entrypoint `updateAdmin`
(src/src/lib.rs lines 379-398): admin check only (no pause check), swaps the
admin, logs `NewAdminEvent`. -/
def contract_update_admin (sender : Address) (new_admin : Address) (s : State) :
    Except CustomContractError (List Event × State) :=
  if sender ≠ s.admin then .error .Unauthorized
  else .ok ([Event.NewAdmin new_admin], { s with admin := new_admin })

/-- `contract_update_pause`, entrypoint `setPaused`
(src/src/lib.rs lines 408-422): admin check only (no pause check), sets the
`paused` flag. -/
def contract_update_pause (sender : Address) (paused : Bool) (s : State) :
    Except CustomContractError (List Event × State) :=
  if sender ≠ s.admin then .error .Unauthorized
  else .ok ([], { s with paused := paused })

/-- Modelled from the spec: the `setImplementors` entrypoint.  The `State`
struct declares the `implementors` map (src/src/lib.rs lines 46-48), but no
entrypoint body for it is under src/.  Spec §4.3: "admin-gated, pause-gated.
Replace-semantics: overwrites any existing entry for `id` wholesale (not a
merge/append)"; guard order per spec §4.1 canonical order: pause check first,
then admin check. -/
def setImplementors (sender : Address) (id : StandardIdentifier)
    (implementers : List ContractAddress) (s : State) :
    Except CustomContractError (List Event × State) :=
  if s.paused then .error .ContractPaused
  else if sender ≠ s.admin then .error .Unauthorized
  else .ok ([], { s with implementors := mapInsert s.implementors id implementers })

/-- The per-identifier result of a `supports` query (CIS-0 `SupportResult`). -/
inductive SupportResult
  | NotSupported
  | Supported
  | SupportedBy (implementers : List ContractAddress)
deriving DecidableEq, Repr

/-- Modelled from the spec: the `supports` entrypoint, absent from src/.
Spec §4.3: "read-only, no guard.  For each requested id: if it is one of the
registry's own natively-supported capability identifiers, respond `Supported`;
else look up `standards`; respond `NotSupported` if absent, or
`SupportedBy(list)` if present.  Order of results matches order of input ids."
The source declares no natively-supported identifiers, so the native set is a
parameter. -/
def supportsQuery (native : StandardIdentifier → Bool)
    (ids : List StandardIdentifier) (s : State) : List SupportResult :=
  ids.map fun id =>
    if native id then .Supported
    else
      match mapLookup s.implementors id with
      | none => .NotSupported
      | some l => .SupportedBy l

/-- Module references, abstracted to naturals. -/
abbrev ModuleReference := Nat

/-- `UpgradeParams` (src/src/lib.rs lines 63-69): the target module and an
optional `(entrypoint name, parameter)` migration call. -/
structure UpgradeParams where
  module : ModuleReference
  migrate : Option (String × List Nat)
deriving DecidableEq, Repr

/-- `UpgradeError` from concordium_std: why `host.upgrade` may fail. -/
inductive UpgradeError
  | MissingModule
  | MissingContract
  | UnsupportedModuleVersion
deriving DecidableEq, Repr

/-- `From<UpgradeError> for CustomContractError` (src/src/lib.rs lines 164-173). -/
def fromUpgradeError : UpgradeError → CustomContractError
  | .MissingModule => .FailedUpgradeMissingModule
  | .MissingContract => .FailedUpgradeMissingContract
  | .UnsupportedModuleVersion => .FailedUpgradeUnsupportedModuleVersion

/-- The durable host-side view of the instance: the root contract state as
persisted plus the module currently backing the instance's code. -/
structure HostState where
  storage : State
  module : ModuleReference
deriving DecidableEq, Repr

/-- `contract_upgrade`, entrypoint `upgrade` (src/src/lib.rs lines 446-469),
a `low_level` receive function.  `state.read_root` is modelled as reading the
durable `storage` field directly; because the function is `low_level`, no
snapshot is auto-committed on return — the only storage the result carries is
what the migration call itself wrote.  `upgradeCheck` models the chain's view
of the target module (`host.upgrade`, `none` = success); `migration` models the
behaviour of the optional migration entrypoint of the new code on the durable
state (`none` = the invoke fails, surfaced as `InvokeContractError` through
`From<CallContractError>`, lines 159-161). -/
def contract_upgrade (sender : Address) (params : UpgradeParams)
    (upgradeCheck : ModuleReference → Option UpgradeError)
    (migration : String → List Nat → State → Option State)
    (h : HostState) : Except CustomContractError HostState :=
  let state := h.storage
  if sender ≠ state.admin then .error .Unauthorized
  else
    match upgradeCheck params.module with
    | some e => .error (fromUpgradeError e)
    | none =>
      let h1 : HostState := { h with module := params.module }
      match params.migrate with
      | none => .ok h1
      | some (func, parameters) =>
        match migration func parameters h1.storage with
        | none => .error .InvokeContractError
        | some s' => .ok { h1 with storage := s' }

/-- The hosting runtime's transactional dispatch of the `upgrade` entrypoint:
on any error the whole call is rolled back, leaving the durable host state
(storage and code module) exactly as before the call. -/
def runUpgrade (sender : Address) (params : UpgradeParams)
    (upgradeCheck : ModuleReference → Option UpgradeError)
    (migration : String → List Nat → State → Option State)
    (h : HostState) : HostState × Except CustomContractError Unit :=
  match contract_upgrade sender params upgradeCheck migration h with
  | .error e => (h, .error e)
  | .ok h' => (h', .ok ())

/-- The contract's mutating operations (excluding `upgrade`, whose migration
runs foreign code), with their senders and parsed parameters. -/
inductive Op
  | SetPlayerData (sender : Address) (player : Address) (st : PlayerState)
  | UpdateBattleResult (sender : Address) (player : Address) (result : BattleResult)
  | UpdateAdmin (sender : Address) (new_admin : Address)
  | SetPaused (sender : Address) (paused : Bool)
  | SetImplementors (sender : Address) (id : StandardIdentifier)
      (implementers : List ContractAddress)
deriving DecidableEq, Repr

/-- Dispatch one operation, discarding emitted events. -/
def applyOp (s : State) : Op → Except CustomContractError State
  | .SetPlayerData sender player st =>
    (contract_state_set_player_data sender (player, st) s).map Prod.snd
  | .UpdateBattleResult sender player result =>
    (update_battle_result sender ⟨player, result⟩ s).map Prod.snd
  | .UpdateAdmin sender new_admin =>
    (contract_update_admin sender new_admin s).map Prod.snd
  | .SetPaused sender paused =>
    (contract_update_pause sender paused s).map Prod.snd
  | .SetImplementors sender id implementers =>
    (setImplementors sender id implementers s).map Prod.snd

/-- Run a sequence of operations; the result is `ok` exactly when every
operation in the sequence succeeded. -/
def runOps (s : State) : List Op → Except CustomContractError State
  | [] => .ok s
  | op :: rest => (applyOp s op).bind fun s' => runOps s' rest

/-! ### Association-list lemmas -/

theorem mapLookup_mapInsert_self {α β : Type} [DecidableEq α]
    (l : List (α × β)) (a : α) (b : β) :
    mapLookup (mapInsert l a b) a = some b := by
  induction l with
  | nil => simp [mapInsert, mapLookup]
  | cons kv rest ih =>
    obtain ⟨k, v⟩ := kv
    by_cases h : k = a
    · simp [mapInsert, mapLookup, h]
    · simp [mapInsert, mapLookup, h, ih]

theorem mapLookup_mapInsert_ne {α β : Type} [DecidableEq α]
    (l : List (α × β)) (a c : α) (b : β) (h : c ≠ a) :
    mapLookup (mapInsert l a b) c = mapLookup l c := by
  induction l with
  | nil => simp [mapInsert, mapLookup, Ne.symm h]
  | cons kv rest ih =>
    obtain ⟨k, v⟩ := kv
    by_cases hk : k = a
    · subst hk
      simp [mapInsert, mapLookup, Ne.symm h]
    · by_cases hc : k = c
      · simp [mapInsert, mapLookup, hk, hc, h]
      · simp [mapInsert, mapLookup, hk, hc, ih]

/-! ### Claim C1 -/

/-- C1 counterexample: on a freshly initialised registry (no record for
account 7), the admin's `updateBattleResult` call returns `Ok` with the state
unchanged and no event — a silent no-op — instead of failing with
`PlayerDoesNotExist` as the claim states. -/
theorem C1_cex :
    update_battle_result (Address.Account 2) ⟨Address.Account 7, .Win⟩
      (contract_init 2).2 = .ok ([], (contract_init 2).2) := by
  rfl

/-- C1 (amended): for every call to `updateBattleResult` by the admin while
unpaused on an account with no `PlayerData` record, the call silently succeeds
as a no-op — it returns `Ok` with the state unchanged and no event logged, and
never fails with `PlayerDoesNotExist`; this outcome is the same on every such
call (the state is left unchanged, so repeated calls behave identically). -/
theorem C1_thm (s : State) (sender p : Address) (r : BattleResult)
    (hp : s.paused = false) (ha : sender = s.admin)
    (habs : mapLookup s.player_data p = none) :
    update_battle_result sender ⟨p, r⟩ s = .ok ([], s) := by
  simp [update_battle_result, hp, ha, habs]

/-- Witness for C1 at a concrete input. -/
theorem C1_witness :
    ((contract_init 2).2.paused = false) ∧
    (Address.Account 2 = (contract_init 2).2.admin) ∧
    (mapLookup (contract_init 2).2.player_data (Address.Account 7) = none) ∧
    update_battle_result (Address.Account 2) ⟨Address.Account 7, .Loss⟩
      (contract_init 2).2 = .ok ([], (contract_init 2).2) :=
  ⟨rfl, rfl, rfl, C1_thm (contract_init 2).2 (Address.Account 2)
    (Address.Account 7) .Loss rfl rfl rfl⟩

/-! ### Claim C10 -/

/-- C10: the counter increment in `update_battle_result` is unguarded u64
arithmetic — for an existing record, a successful `recordResult(player, Win)`
sets `wins` to `(wins + 1) % 2^64` (wrapping, not saturating or checked), so
at `wins = 2^64 - 1` the counter wraps to `0` (instantiated by the witness). -/
theorem C10_thm (s : State) (sender p : Address) (pd : PlayerData)
    (hp : s.paused = false) (ha : sender = s.admin)
    (hpd : mapLookup s.player_data p = some pd) :
    update_battle_result sender ⟨p, .Win⟩ s =
      .ok ([Event.NewBattleResult p .Win],
        { s with player_data :=
            mapInsert s.player_data p { pd with wins := (pd.wins + 1) % U64_MOD } }) := by
  simp [update_battle_result, hp, ha, hpd]

/-- A concrete state whose one record has `wins = 2^64 - 1`. -/
def overflowState : State :=
  { admin := Address.Account 2,
    player_data := [(Address.Account 7, ⟨.Active, U64_MOD - 1, 0⟩)],
    paused := false,
    implementors := [] }

/-- `overflowState` after one more Win: its `wins` counter has wrapped to 0. -/
def overflowStateAfter : State :=
  { admin := Address.Account 2,
    player_data := [(Address.Account 7, ⟨.Active, 0, 0⟩)],
    paused := false,
    implementors := [] }

/-- Witness for C10: at `wins = 2^64 - 1` a successful Win yields `wins = 0`. -/
theorem C10_witness :
    (overflowState.paused = false) ∧
    (Address.Account 2 = overflowState.admin) ∧
    (mapLookup overflowState.player_data (Address.Account 7) =
      some ⟨.Active, U64_MOD - 1, 0⟩) ∧
    update_battle_result (Address.Account 2) ⟨Address.Account 7, .Win⟩
        overflowState =
      .ok ([Event.NewBattleResult (Address.Account 7) .Win], overflowStateAfter) := by
  refine ⟨rfl, rfl, rfl, ?_⟩
  have h := C10_thm overflowState (Address.Account 2) (Address.Account 7)
    ⟨.Active, U64_MOD - 1, 0⟩ rfl rfl rfl
  rw [h]
  rfl

/-! ### Claim C7 -/

/-- C7: `setPlayerData` by the admin while unpaused always succeeds (parameters
arrive parsed; wire decoding is outside the embedding): with no existing record
it creates one with the given status and zeroed counters; with an existing
record it updates only the status, preserving both counters; records of other
accounts are untouched. -/
theorem C7_thm (s : State) (sender p : Address) (st : PlayerState)
    (hp : s.paused = false) (ha : sender = s.admin) :
    ∃ s', contract_state_set_player_data sender (p, st) s = .ok ([], s') ∧
      (mapLookup s.player_data p = none →
        mapLookup s'.player_data p = some ⟨st, 0, 0⟩) ∧
      (∀ pd, mapLookup s.player_data p = some pd →
        mapLookup s'.player_data p = some ⟨st, pd.wins, pd.losses⟩) ∧
      (∀ q, q ≠ p → mapLookup s'.player_data q = mapLookup s.player_data q) := by
  cases hl : mapLookup s.player_data p with
  | none =>
    refine ⟨{ s with player_data := mapInsert s.player_data p ⟨st, 0, 0⟩ },
      ?_, ?_, ?_, ?_⟩
    · simp [contract_state_set_player_data, hp, ha, hl]
    · intro _
      simp [mapLookup_mapInsert_self]
    · intro pd h
      exact Option.noConfusion h
    · intro q hq
      simp [mapLookup_mapInsert_ne _ _ _ _ hq]
  | some pd0 =>
    refine ⟨{ s with player_data := mapInsert s.player_data p { pd0 with state := st } }, ?_, ?_, ?_, ?_⟩
    · simp [contract_state_set_player_data, hp, ha, hl]
    · intro h
      exact Option.noConfusion h
    · intro pd h
      obtain rfl : pd0 = pd := by injection h
      simp [mapLookup_mapInsert_self]
    · intro q hq
      simp [mapLookup_mapInsert_ne _ _ _ _ hq]

/-- Witness for C7 at a concrete input. -/
theorem C7_witness :
    ((contract_init 2).2.paused = false) ∧
    (Address.Account 2 = (contract_init 2).2.admin) ∧
    (∃ s', contract_state_set_player_data (Address.Account 2)
        (Address.Account 7, .Active) (contract_init 2).2 = .ok ([], s') ∧
      (mapLookup (contract_init 2).2.player_data (Address.Account 7) = none →
        mapLookup s'.player_data (Address.Account 7) = some ⟨.Active, 0, 0⟩) ∧
      (∀ pd, mapLookup (contract_init 2).2.player_data (Address.Account 7) = some pd →
        mapLookup s'.player_data (Address.Account 7) =
          some ⟨.Active, pd.wins, pd.losses⟩) ∧
      (∀ q, q ≠ Address.Account 7 →
        mapLookup s'.player_data q =
          mapLookup (contract_init 2).2.player_data q)) :=
  ⟨rfl, rfl, C7_thm (contract_init 2).2 (Address.Account 2) (Address.Account 7)
    .Active rfl rfl⟩

/-! ### Claim C4 -/

/-- The admin of the C4 scenario. -/
def scenarioAdmin : Address := Address.Account 2

/-- The player of the C4 scenario. -/
def scenarioP : Address := Address.Account 7

/-- The C4 scenario call sequence: `setPlayerStatus(P, Active)`, then two
Wins, then one Loss, all by the admin. -/
def scenarioOps : List Op :=
  [ .SetPlayerData scenarioAdmin scenarioP .Active,
    .UpdateBattleResult scenarioAdmin scenarioP .Win,
    .UpdateBattleResult scenarioAdmin scenarioP .Win,
    .UpdateBattleResult scenarioAdmin scenarioP .Loss ]

/-- The state reached by the C4 scenario from a fresh initialisation. -/
def scenarioFinal : State :=
  { admin := scenarioAdmin,
    player_data := [(scenarioP, ⟨.Active, 2, 1⟩)],
    paused := false,
    implementors := [] }

/-- A state agreeing with `scenarioFinal` on P's status but with different
counters. -/
def scenarioOther : State :=
  { admin := scenarioAdmin,
    player_data := [(scenarioP, ⟨.Active, 5, 0⟩)],
    paused := false,
    implementors := [] }

/-- C4 counterexample: `getPlayerData` does not return the counters.  Its
result on the scenario's final state (record `(Active, wins=2, losses=1)`)
is identical to its result on a state whose record is `(Active, wins=5,
losses=0)`, so the returned value cannot carry `wins = 2` and `losses = 1` as
the claim states: the entrypoint returns the status only. -/
theorem C4_cex :
    runOps (contract_init 2).2 scenarioOps = .ok scenarioFinal ∧
    mapLookup scenarioFinal.player_data scenarioP = some ⟨.Active, 2, 1⟩ ∧
    mapLookup scenarioOther.player_data scenarioP = some ⟨.Active, 5, 0⟩ ∧
    contract_state_get_player_data scenarioP scenarioFinal = .ok .Active ∧
    contract_state_get_player_data scenarioP scenarioFinal =
      contract_state_get_player_data scenarioP scenarioOther :=
  ⟨rfl, rfl, rfl, rfl, rfl⟩

/-- C4 (amended): after the scenario `setPlayerStatus(P, Active)`,
`recordResult(P, Win)` twice, `recordResult(P, Loss)` once — all by admin A on
a freshly initialised registry — `getPlayerData(P)` succeeds and returns the
status `Active` (the entrypoint returns only the status), and the stored
record for P has `wins = 2` and `losses = 1`. -/
theorem C4_thm :
    runOps (contract_init 2).2 scenarioOps = .ok scenarioFinal ∧
    contract_state_get_player_data scenarioP scenarioFinal = .ok .Active ∧
    mapLookup scenarioFinal.player_data scenarioP = some ⟨.Active, 2, 1⟩ :=
  ⟨rfl, rfl, rfl⟩

/-! ### Claim C5 -/

/-- C5: `setImplementors(id, implementers)` by the admin while unpaused
overwrites the entry for `id` wholesale (whatever was stored before) and
leaves other identifiers untouched; a subsequent `supports([id])` returns
`SupportedBy` with exactly the stored list, and storing the empty list yields
`SupportedBy([])`, distinct from `NotSupported`. -/
theorem C5_thm (s : State) (sender : Address) (id : StandardIdentifier)
    (l₁ : List ContractAddress) (native : StandardIdentifier → Bool)
    (hp : s.paused = false) (ha : sender = s.admin) (hn : native id = false) :
    ∃ s', setImplementors sender id l₁ s = .ok ([], s') ∧
      mapLookup s'.implementors id = some l₁ ∧
      (∀ j, j ≠ id → mapLookup s'.implementors j = mapLookup s.implementors j) ∧
      supportsQuery native [id] s' = [.SupportedBy l₁] ∧
      ∃ s'', setImplementors sender id [] s' = .ok ([], s'') ∧
        supportsQuery native [id] s'' = [.SupportedBy []] ∧
        [SupportResult.SupportedBy []] ≠ [SupportResult.NotSupported] := by
  refine ⟨{ s with implementors := mapInsert s.implementors id l₁ }, ?_, ?_, ?_, ?_, ?_⟩
  · simp [setImplementors, hp, ha]
  · simp [mapLookup_mapInsert_self]
  · intro j hj
    simp [mapLookup_mapInsert_ne _ _ _ _ hj]
  · simp [supportsQuery, hn, mapLookup_mapInsert_self]
  · refine ⟨{ s with implementors := mapInsert (mapInsert s.implementors id l₁) id [] }, ?_, ?_, ?_⟩
    · simp [setImplementors, hp, ha]
    · simp [supportsQuery, hn, mapLookup_mapInsert_self]
    · simp

/-- Witness for C5 at a concrete input. -/
theorem C5_witness :
    ((contract_init 2).2.paused = false) ∧
    (Address.Account 2 = (contract_init 2).2.admin) ∧
    ((fun _ => false : StandardIdentifier → Bool) "std1" = false) ∧
    (∃ s', setImplementors (Address.Account 2) "std1" [(1, 0), (2, 0)]
        (contract_init 2).2 = .ok ([], s') ∧
      mapLookup s'.implementors "std1" = some [(1, 0), (2, 0)] ∧
      (∀ j, j ≠ "std1" →
        mapLookup s'.implementors j = mapLookup (contract_init 2).2.implementors j) ∧
      supportsQuery (fun _ => false) ["std1"] s' = [.SupportedBy [(1, 0), (2, 0)]] ∧
      ∃ s'', setImplementors (Address.Account 2) "std1" [] s' = .ok ([], s'') ∧
        supportsQuery (fun _ => false) ["std1"] s'' = [.SupportedBy []] ∧
        [SupportResult.SupportedBy []] ≠ [SupportResult.NotSupported]) :=
  ⟨rfl, rfl, rfl, C5_thm (contract_init 2).2 (Address.Account 2) "std1"
    [(1, 0), (2, 0)] (fun _ => false) rfl rfl rfl⟩

/-! ### Claim C6 -/

/-- C6: while `paused = true`, every pause-gated mutating operation
(`setPlayerData`, `updateBattleResult`, `setImplementors`) fails with
`ContractPaused` for every caller — the sender is arbitrary, in particular it
may be the admin — because the pause check precedes the admin check; and the
admin's `setPaused(false)` restores exactly the prior state with `paused`
flipped, leaving `player_data` and `implementors` unchanged by the paused
period. -/
theorem C6_thm (s : State) (sender sender₂ p : Address) (st : PlayerState)
    (r : BattleResult) (id : StandardIdentifier) (l : List ContractAddress)
    (hp : s.paused = true) :
    contract_state_set_player_data sender (p, st) s = .error .ContractPaused ∧
    update_battle_result sender ⟨p, r⟩ s = .error .ContractPaused ∧
    setImplementors sender id l s = .error .ContractPaused ∧
    (sender₂ = s.admin →
      contract_update_pause sender₂ false s = .ok ([], { s with paused := false })) ∧
    ({ s with paused := false } : State).player_data = s.player_data ∧
    ({ s with paused := false } : State).implementors = s.implementors := by
  refine ⟨?_, ?_, ?_, ?_, rfl, rfl⟩
  · simp [contract_state_set_player_data, hp]
  · simp [update_battle_result, hp]
  · simp [setImplementors, hp]
  · intro h
    simp [contract_update_pause, h]

/-- A concrete paused state with some player and standards data. -/
def pausedState : State :=
  { admin := Address.Account 2,
    player_data := [(Address.Account 7, ⟨.Suspended, 3, 4⟩)],
    paused := true,
    implementors := [("std1", [(1, 0)])] }

/-- Witness for C6 at a concrete input, with the admin itself as the blocked
caller. -/
theorem C6_witness :
    (pausedState.paused = true) ∧
    contract_state_set_player_data (Address.Account 2)
      (Address.Account 7, .Active) pausedState = .error .ContractPaused ∧
    update_battle_result (Address.Account 2) ⟨Address.Account 7, .Win⟩
      pausedState = .error .ContractPaused ∧
    setImplementors (Address.Account 2) "std2" [(9, 9)] pausedState =
      .error .ContractPaused ∧
    ((Address.Account 2 : Address) = pausedState.admin →
      contract_update_pause (Address.Account 2) false pausedState =
        .ok ([], { pausedState with paused := false })) ∧
    ({ pausedState with paused := false } : State).player_data =
      pausedState.player_data ∧
    ({ pausedState with paused := false } : State).implementors =
      pausedState.implementors :=
  ⟨rfl, (C6_thm pausedState (Address.Account 2) (Address.Account 2)
    (Address.Account 7) .Active .Win "std2" [(9, 9)] rfl).1,
   (C6_thm pausedState (Address.Account 2) (Address.Account 2)
    (Address.Account 7) .Active .Win "std2" [(9, 9)] rfl).2.1,
   (C6_thm pausedState (Address.Account 2) (Address.Account 2)
    (Address.Account 7) .Active .Win "std2" [(9, 9)] rfl).2.2.1,
   (C6_thm pausedState (Address.Account 2) (Address.Account 2)
    (Address.Account 7) .Active .Win "std2" [(9, 9)] rfl).2.2.2.1,
   rfl, rfl⟩

/-! ### Claim C8 -/

/-- C8: `updateAdmin` is callable only by the current admin and rotation is
immediate and atomic: it succeeds for the current admin, and on the updated
state the previous admin's very next admin-gated call — `setPlayerData`,
`updateBattleResult`, `setPaused` or `updateAdmin` — fails `Unauthorized`,
while the new admin's very next admin-gated call passes the authorization
check (`setPaused` succeeds outright, `setPlayerData` succeeds outright). -/
theorem C8_thm (s : State) (newA sender p : Address) (st : PlayerState)
    (r : BattleResult) (b : Bool) (x : Address)
    (hne : s.admin ≠ newA) (hp : s.paused = false) :
    (sender ≠ s.admin →
      contract_update_admin sender newA s = .error .Unauthorized) ∧
    contract_update_admin s.admin newA s =
      .ok ([Event.NewAdmin newA], { s with admin := newA }) ∧
    contract_state_set_player_data s.admin (p, st) ({ s with admin := newA } : State) =
      .error .Unauthorized ∧
    update_battle_result s.admin ⟨p, r⟩ ({ s with admin := newA } : State) =
      .error .Unauthorized ∧
    contract_update_pause s.admin b ({ s with admin := newA } : State) =
      .error .Unauthorized ∧
    contract_update_admin s.admin x ({ s with admin := newA } : State) =
      .error .Unauthorized ∧
    contract_update_pause newA b ({ s with admin := newA } : State) =
      .ok ([], { s with admin := newA, paused := b }) ∧
    (∃ s', contract_state_set_player_data newA (p, st) ({ s with admin := newA } : State) =
      .ok ([], s')) := by
  refine ⟨?_, ?_, ?_, ?_, ?_, ?_, ?_, ?_⟩
  · intro hs
    simp [contract_update_admin, hs]
  · simp [contract_update_admin]
  · simp [contract_state_set_player_data, hp, hne]
  · simp [update_battle_result, hp, hne]
  · simp [contract_update_pause, hne]
  · simp [contract_update_admin, hne]
  · simp [contract_update_pause]
  · cases hl : mapLookup s.player_data p with
    | none =>
      refine ⟨{ s with admin := newA, player_data := mapInsert s.player_data p ⟨st, 0, 0⟩ }, ?_⟩
      simp [contract_state_set_player_data, hp, hl]
    | some pd0 =>
      refine ⟨{ s with admin := newA, player_data := mapInsert s.player_data p { pd0 with state := st } }, ?_⟩
      simp [contract_state_set_player_data, hp, hl]

/-- Witness for C8 at a concrete input. -/
theorem C8_witness :
    ((contract_init 2).2.admin ≠ Address.Account 3) ∧
    ((contract_init 2).2.paused = false) ∧
    ((Address.Account 5 : Address) ≠ (contract_init 2).2.admin →
      contract_update_admin (Address.Account 5) (Address.Account 3)
        (contract_init 2).2 = .error .Unauthorized) ∧
    contract_update_admin (contract_init 2).2.admin (Address.Account 3)
        (contract_init 2).2 =
      .ok ([Event.NewAdmin (Address.Account 3)],
        { (contract_init 2).2 with admin := Address.Account 3 }) ∧
    contract_state_set_player_data (contract_init 2).2.admin
        (Address.Account 7, .Active)
        ({ (contract_init 2).2 with admin := Address.Account 3 } : State) =
      .error .Unauthorized ∧
    update_battle_result (contract_init 2).2.admin ⟨Address.Account 7, .Win⟩
        ({ (contract_init 2).2 with admin := Address.Account 3 } : State) =
      .error .Unauthorized ∧
    contract_update_pause (contract_init 2).2.admin true
        ({ (contract_init 2).2 with admin := Address.Account 3 } : State) =
      .error .Unauthorized ∧
    contract_update_admin (contract_init 2).2.admin (Address.Account 4)
        ({ (contract_init 2).2 with admin := Address.Account 3 } : State) =
      .error .Unauthorized ∧
    contract_update_pause (Address.Account 3) true
        ({ (contract_init 2).2 with admin := Address.Account 3 } : State) =
      .ok ([], { (contract_init 2).2 with admin := Address.Account 3, paused := true }) ∧
    (∃ s', contract_state_set_player_data (Address.Account 3)
        (Address.Account 7, .Active)
        ({ (contract_init 2).2 with admin := Address.Account 3 } : State) =
      .ok ([], s')) := by
  have h := C8_thm (contract_init 2).2 (Address.Account 3) (Address.Account 5)
    (Address.Account 7) .Active .Win true (Address.Account 4) (by decide) rfl
  exact ⟨by decide, rfl, h.1, h.2.1, h.2.2.1, h.2.2.2.1, h.2.2.2.2.1,
    h.2.2.2.2.2.1, h.2.2.2.2.2.2.1, h.2.2.2.2.2.2.2⟩

/-! ### Claim C2 -/

/-- C2: `contract_upgrade` reads `admin` directly from durable storage
(`read_root`), so its authorization outcome is determined by
`h.storage.admin`; and because the entrypoint is `low_level`, no in-memory
snapshot is auto-committed after the migration runs — when the migration call
succeeds with output `s'`, the durable storage committed by the call is
exactly `s'`, never the stale pre-migration state. -/
theorem C2_thm (sender : Address) (params : UpgradeParams)
    (upgradeCheck : ModuleReference → Option UpgradeError)
    (migration : String → List Nat → State → Option State)
    (h : HostState) :
    (sender ≠ h.storage.admin →
      contract_upgrade sender params upgradeCheck migration h =
        .error .Unauthorized) ∧
    (∀ func parameters s', sender = h.storage.admin →
      upgradeCheck params.module = none →
      params.migrate = some (func, parameters) →
      migration func parameters h.storage = some s' →
      contract_upgrade sender params upgradeCheck migration h =
        .ok { storage := s', module := params.module }) := by
  constructor
  · intro hne
    simp [contract_upgrade, hne]
  · intro func parameters s' ha hc hm hmig
    simp [contract_upgrade, ha, hc, hm, hmig]

/-- A concrete pre-upgrade host state. -/
def upHost : HostState :=
  { storage :=
      { admin := Address.Account 2, player_data := [], paused := false,
        implementors := [] },
    module := 1 }

/-- A concrete migrated state, different from `upHost.storage`. -/
def migratedState : State :=
  { admin := Address.Account 2,
    player_data := [(Address.Account 7, ⟨.Active, 9, 9⟩)],
    paused := false,
    implementors := [] }

/-- Concrete upgrade parameters with a migration call. -/
def upParams : UpgradeParams := { module := 5, migrate := some ("migrate", [0]) }

/-- A chain on which the target module exists and is compatible. -/
def upCheckOk : ModuleReference → Option UpgradeError := fun _ => none

/-- A migration entrypoint that succeeds, rewriting storage to
`migratedState`. -/
def upMigrationOk : String → List Nat → State → Option State :=
  fun _ _ _ => some migratedState

/-- Witness for C2 at concrete inputs: a non-admin sender is rejected from the
durable admin value, and a successful migration's output is exactly what gets
committed. -/
theorem C2_witness :
    ((Address.Account 9 : Address) ≠ upHost.storage.admin) ∧
    contract_upgrade (Address.Account 9) upParams upCheckOk upMigrationOk
      upHost = .error .Unauthorized ∧
    ((Address.Account 2 : Address) = upHost.storage.admin) ∧
    (upCheckOk upParams.module = none) ∧
    (upParams.migrate = some ("migrate", [0])) ∧
    (upMigrationOk "migrate" [0] upHost.storage = some migratedState) ∧
    contract_upgrade (Address.Account 2) upParams upCheckOk upMigrationOk
      upHost = .ok { storage := migratedState, module := 5 } :=
  ⟨by decide,
   (C2_thm (Address.Account 9) upParams upCheckOk upMigrationOk upHost).1 (by decide),
   rfl, rfl, rfl, rfl,
   (C2_thm (Address.Account 2) upParams upCheckOk upMigrationOk upHost).2
     "migrate" [0] migratedState rfl rfl rfl rfl⟩

/-! ### Claim C3 -/

/-- C3: an `upgrade` call by the admin, against an existing compatible module,
whose migration invocation fails, fails as a whole with
`InvokeContractError`, and the transactionally dispatched call leaves the
durable host state untouched: `admin`, `player_data` (players), `paused` and
`implementors` (standards) are identical to their pre-upgrade values, and the
code module backing the instance is unchanged (the code swap is rolled back
with the rest of the transaction). -/
theorem C3_thm (sender : Address) (params : UpgradeParams)
    (upgradeCheck : ModuleReference → Option UpgradeError)
    (migration : String → List Nat → State → Option State)
    (h : HostState) (func : String) (parameters : List Nat)
    (ha : sender = h.storage.admin)
    (hc : upgradeCheck params.module = none)
    (hm : params.migrate = some (func, parameters))
    (hfail : migration func parameters h.storage = none) :
    runUpgrade sender params upgradeCheck migration h =
      (h, .error .InvokeContractError) ∧
    (runUpgrade sender params upgradeCheck migration h).1.storage.admin =
      h.storage.admin ∧
    (runUpgrade sender params upgradeCheck migration h).1.storage.player_data =
      h.storage.player_data ∧
    (runUpgrade sender params upgradeCheck migration h).1.storage.paused =
      h.storage.paused ∧
    (runUpgrade sender params upgradeCheck migration h).1.storage.implementors =
      h.storage.implementors ∧
    (runUpgrade sender params upgradeCheck migration h).1.module = h.module := by
  have key : runUpgrade sender params upgradeCheck migration h =
      (h, .error .InvokeContractError) := by
    simp [runUpgrade, contract_upgrade, ha, hc, hm, hfail]
  refine ⟨key, ?_, ?_, ?_, ?_, ?_⟩ <;> rw [key]

/-- A migration entrypoint whose invocation always fails. -/
def upMigrationFail : String → List Nat → State → Option State :=
  fun _ _ _ => none

/-- Witness for C3 at concrete inputs. -/
theorem C3_witness :
    ((Address.Account 2 : Address) = upHost.storage.admin) ∧
    (upCheckOk upParams.module = none) ∧
    (upParams.migrate = some ("migrate", [0])) ∧
    (upMigrationFail "migrate" [0] upHost.storage = none) ∧
    runUpgrade (Address.Account 2) upParams upCheckOk upMigrationFail upHost =
      (upHost, .error .InvokeContractError) ∧
    (runUpgrade (Address.Account 2) upParams upCheckOk upMigrationFail
      upHost).1.storage.player_data = upHost.storage.player_data ∧
    (runUpgrade (Address.Account 2) upParams upCheckOk upMigrationFail
      upHost).1.module = upHost.module := by
  have h := C3_thm (Address.Account 2) upParams upCheckOk upMigrationFail
    upHost "migrate" [0] rfl rfl rfl rfl
  exact ⟨rfl, rfl, rfl, rfl, h.1, h.2.2.1, h.2.2.2.2.2⟩

/-! ### Claim C9 -/

/-- Per-operation counter behaviour: a successful operation leaves an existing
record's counters unchanged, or increments exactly one of them mod 2^64. -/
theorem applyOp_counters (s : State) (op : Op) (s' : State) (a : Address)
    (pd : PlayerData) (hs : applyOp s op = .ok s')
    (hpd : mapLookup s.player_data a = some pd) :
    ∃ pd', mapLookup s'.player_data a = some pd' ∧
      (pd'.wins = pd.wins ∨ pd'.wins = (pd.wins + 1) % U64_MOD) ∧
      (pd'.losses = pd.losses ∨ pd'.losses = (pd.losses + 1) % U64_MOD) := by
  cases op with
  | SetPlayerData sender player st =>
    by_cases hp : s.paused
    · simp [applyOp, contract_state_set_player_data, hp, Except.map] at hs
    · by_cases ha : sender = s.admin
      · cases hl : mapLookup s.player_data player with
        | none =>
          simp [applyOp, contract_state_set_player_data, hp, ha, hl,
            Except.map] at hs
          subst hs
          by_cases hap : a = player
          · subst hap
            rw [hpd] at hl
            exact Option.noConfusion hl
          · exact ⟨pd, by simpa [mapLookup_mapInsert_ne _ _ _ _ hap] using hpd,
              Or.inl rfl, Or.inl rfl⟩
        | some pd0 =>
          simp [applyOp, contract_state_set_player_data, hp, ha, hl,
            Except.map] at hs
          subst hs
          by_cases hap : a = player
          · subst hap
            rw [hpd] at hl
            obtain rfl : pd = pd0 := by injection hl
            exact ⟨{ pd with state := st }, by simp [mapLookup_mapInsert_self],
              Or.inl rfl, Or.inl rfl⟩
          · exact ⟨pd, by simpa [mapLookup_mapInsert_ne _ _ _ _ hap] using hpd,
              Or.inl rfl, Or.inl rfl⟩
      · simp [applyOp, contract_state_set_player_data, hp, ha, Except.map] at hs
  | UpdateBattleResult sender player r =>
    by_cases hp : s.paused
    · simp [applyOp, update_battle_result, hp, Except.map] at hs
    · by_cases ha : sender = s.admin
      · cases hl : mapLookup s.player_data player with
        | none =>
          simp [applyOp, update_battle_result, hp, ha, hl, Except.map] at hs
          subst hs
          exact ⟨pd, hpd, Or.inl rfl, Or.inl rfl⟩
        | some pd0 =>
          cases r with
          | Win =>
            simp [applyOp, update_battle_result, hp, ha, hl, Except.map] at hs
            subst hs
            by_cases hap : a = player
            · subst hap
              rw [hpd] at hl
              obtain rfl : pd = pd0 := by injection hl
              exact ⟨{ pd with wins := (pd.wins + 1) % U64_MOD },
                by simp [mapLookup_mapInsert_self], Or.inr rfl, Or.inl rfl⟩
            · exact ⟨pd, by simpa [mapLookup_mapInsert_ne _ _ _ _ hap] using hpd,
                Or.inl rfl, Or.inl rfl⟩
          | Loss =>
            simp [applyOp, update_battle_result, hp, ha, hl, Except.map] at hs
            subst hs
            by_cases hap : a = player
            · subst hap
              rw [hpd] at hl
              obtain rfl : pd = pd0 := by injection hl
              exact ⟨{ pd with losses := (pd.losses + 1) % U64_MOD },
                by simp [mapLookup_mapInsert_self], Or.inl rfl, Or.inr rfl⟩
            · exact ⟨pd, by simpa [mapLookup_mapInsert_ne _ _ _ _ hap] using hpd,
                Or.inl rfl, Or.inl rfl⟩
      · simp [applyOp, update_battle_result, hp, ha, Except.map] at hs
  | UpdateAdmin sender newA =>
    by_cases ha : sender = s.admin
    · simp [applyOp, contract_update_admin, ha, Except.map] at hs
      subst hs
      exact ⟨pd, hpd, Or.inl rfl, Or.inl rfl⟩
    · simp [applyOp, contract_update_admin, ha, Except.map] at hs
  | SetPaused sender b =>
    by_cases ha : sender = s.admin
    · simp [applyOp, contract_update_pause, ha, Except.map] at hs
      subst hs
      exact ⟨pd, hpd, Or.inl rfl, Or.inl rfl⟩
    · simp [applyOp, contract_update_pause, ha, Except.map] at hs
  | SetImplementors sender id impls =>
    by_cases hp : s.paused
    · simp [applyOp, setImplementors, hp, Except.map] at hs
    · by_cases ha : sender = s.admin
      · simp [applyOp, setImplementors, hp, ha, Except.map] at hs
        subst hs
        exact ⟨pd, hpd, Or.inl rfl, Or.inl rfl⟩
      · simp [applyOp, setImplementors, hp, ha, Except.map] at hs

/-- C9 counterexample: the monotonicity claim fails at the u64 boundary — from
a state whose record has `wins = 2^64 - 1`, the successful operation
`recordResult(P, Win)` leaves `wins = 0`, a strict decrease. -/
theorem C9_cex :
    mapLookup overflowState.player_data (Address.Account 7) =
      some ⟨.Active, U64_MOD - 1, 0⟩ ∧
    applyOp overflowState
      (.UpdateBattleResult (Address.Account 2) (Address.Account 7) .Win) =
      .ok overflowStateAfter ∧
    mapLookup overflowStateAfter.player_data (Address.Account 7) =
      some ⟨.Active, 0, 0⟩ ∧
    0 < U64_MOD - 1 := by
  refine ⟨rfl, rfl, rfl, ?_⟩
  norm_num [U64_MOD]

/-- C9 (amended): `setPlayerStatus` preserves an existing record's counters,
`recordResult` only increments one of them (modulo 2^64), no reset operation
exists, and over every sequence of successful operations short enough that the
counters stay below 2^64 (no wraparound), `wins` and `losses` never decrease
and grow by at most the number of operations. -/
theorem C9_thm (ops : List Op) (s s' : State) (a : Address) (pd : PlayerData)
    (hrun : runOps s ops = .ok s')
    (hpd : mapLookup s.player_data a = some pd)
    (hw : pd.wins + ops.length < U64_MOD)
    (hl : pd.losses + ops.length < U64_MOD) :
    ∃ pd', mapLookup s'.player_data a = some pd' ∧
      pd.wins ≤ pd'.wins ∧ pd.losses ≤ pd'.losses ∧
      pd'.wins ≤ pd.wins + ops.length ∧ pd'.losses ≤ pd.losses + ops.length := by
  induction ops generalizing s pd with
  | nil =>
    simp [runOps] at hrun
    subst hrun
    exact ⟨pd, hpd, le_refl _, le_refl _, by simp, by simp⟩
  | cons op rest ih =>
    rw [List.length_cons] at hw hl
    obtain ⟨s₁, h₁, h₂⟩ : ∃ s₁, applyOp s op = .ok s₁ ∧ runOps s₁ rest = .ok s' := by
      cases hap : applyOp s op with
      | error e => simp [runOps, hap, Except.bind] at hrun
      | ok s₁ => exact ⟨s₁, rfl, by simpa [runOps, hap, Except.bind] using hrun⟩
    obtain ⟨pd₁, hpd₁, hw₁, hl₁⟩ := applyOp_counters s op s₁ a pd h₁ hpd
    have hwb : pd.wins ≤ pd₁.wins ∧ pd₁.wins ≤ pd.wins + 1 := by
      rcases hw₁ with h | h
      · rw [h]
        exact ⟨le_refl _, Nat.le_succ _⟩
      · rw [h, Nat.mod_eq_of_lt (by omega)]
        exact ⟨Nat.le_succ _, le_refl _⟩
    have hlb : pd.losses ≤ pd₁.losses ∧ pd₁.losses ≤ pd.losses + 1 := by
      rcases hl₁ with h | h
      · rw [h]
        exact ⟨le_refl _, Nat.le_succ _⟩
      · rw [h, Nat.mod_eq_of_lt (by omega)]
        exact ⟨Nat.le_succ _, le_refl _⟩
    obtain ⟨pd', hpd', hge₁, hge₂, hle₁, hle₂⟩ :=
      ih s₁ pd₁ h₂ hpd₁ (by omega) (by omega)
    refine ⟨pd', hpd', by omega, by omega, ?_, ?_⟩
    · rw [List.length_cons]
      omega
    · rw [List.length_cons]
      omega

/-- The C9 witness sequence: one more Win recorded on the scenario's final
state. -/
def C9_wOps : List Op := [.UpdateBattleResult scenarioAdmin scenarioP .Win]

/-- The state after the C9 witness sequence. -/
def C9_wAfter : State :=
  { admin := scenarioAdmin,
    player_data := [(scenarioP, ⟨.Active, 3, 1⟩)],
    paused := false,
    implementors := [] }

/-- Witness for C9 at a concrete input. -/
theorem C9_witness :
    (runOps scenarioFinal C9_wOps = .ok C9_wAfter) ∧
    (mapLookup scenarioFinal.player_data scenarioP = some ⟨.Active, 2, 1⟩) ∧
    (2 + C9_wOps.length < U64_MOD) ∧
    (1 + C9_wOps.length < U64_MOD) ∧
    (∃ pd', mapLookup C9_wAfter.player_data scenarioP = some pd' ∧
      2 ≤ pd'.wins ∧ 1 ≤ pd'.losses ∧
      pd'.wins ≤ 2 + C9_wOps.length ∧ pd'.losses ≤ 1 + C9_wOps.length) := by
  refine ⟨rfl, rfl, by norm_num [C9_wOps, U64_MOD], by norm_num [C9_wOps, U64_MOD], ?_⟩
  exact C9_thm C9_wOps scenarioFinal C9_wAfter scenarioP ⟨.Active, 2, 1⟩ rfl rfl
    (by norm_num [C9_wOps, U64_MOD]) (by norm_num [C9_wOps, U64_MOD])

end VersusLeague
